import Mathlib

/-!
Shallow embedding of `src/command.rs` of advancedtelematic/campaign-manager:
the command grammar and dispatch engine of the fleet-update CLI.

Each Rust `enum` becomes a Lean inductive; each `FromStr` impl becomes a
`fromStr` function translated arm by arm (lowercase the token, sequential
equality tests, fall through to an `Error::Command` message built exactly as
the `format!` string in the source); each `Exec` impl becomes an `exec`
function over an explicit environment `Env` of external collaborators
(configuration loader, identifier parsers, backend facades).  Panics
(`expect`, `panic!`) are modelled as the `ExecOut.panic` outcome, `?`
propagation as `ExecOut.err`, and the single backend invocation of a
dispatch arm as `ExecOut.called op res`, which structurally records which
operation was invoked, with which parameters, and what it returned.
-/

namespace CampaignManager

/-- Modelled from the spec: the mutable configuration/session handle produced
by the configuration collaborator (`config` crate, not under `src/`); opaque
to the dispatch core, so modelled as an abstract value. -/
structure Config where
  seed : Nat
deriving Repr, DecidableEq

/-- The error type of the `error` crate (not under `src/`).  `Command` is the
constructor `command.rs` itself builds (`Error::Command(format!(...))`);
`Api` — Modelled from the spec: stands for every externally produced failure
class (config-load failure, identifier-parse failure, backend failure),
which reaches this core only through `?` conversion. -/
inductive Error where
  | Command : String → Error
  | Api : String → Error
deriving Repr, DecidableEq

/-- Modelled from the spec: the campaign domain's typed identifier, produced
by parsing a string parameter; opaque token. -/
structure CampaignId where
  val : String
deriving Repr, DecidableEq

/-- Modelled from the spec: the device domain's typed identifier. -/
structure DeviceId where
  val : String
deriving Repr, DecidableEq

/-- Modelled from the spec: the group domain's typed identifier. -/
structure GroupId where
  val : String
deriving Repr, DecidableEq

/-- Modelled from the spec: the update domain's typed identifier. -/
structure UpdateId where
  val : String
deriving Repr, DecidableEq

/-- Modelled from the spec: the enumerated device-type tag of the registry
facade (`registry::DeviceType`). -/
structure DeviceType where
  tag : String
deriving Repr, DecidableEq

/-- Modelled from the spec: a parsed package descriptor
(`reposerver::TargetPackage`). -/
structure TargetPackage where
  descr : String
deriving Repr, DecidableEq

/-- Modelled from the spec: per-device target requests read from a targets
file (`director::TargetRequests`). -/
structure TargetRequests where
  raw : String
deriving Repr, DecidableEq

/-- Modelled from the spec: the composed update set
(`director::TufUpdates`), produced from target requests by an external
conversion and passed through unmodified. -/
structure TufUpdates where
  raw : String
deriving Repr, DecidableEq

/-- The view of `clap::ArgMatches` that `command.rs` reads: a named-value
flag map (`value_of`) and an optional nested subcommand invocation
(`subcommand`). -/
inductive Flags where
  | mk (values : List (String × String)) (sub : Option (String × Option Flags))

/-- `ArgMatches::value_of(name)`: look up a flag's value by name. -/
def Flags.valueOf : Flags → String → Option String
  | .mk vs _, k => (vs.lookup k)

/-- `ArgMatches::subcommand()`: the nested subcommand token and its matches;
`("", none)` when no subcommand was given. -/
def Flags.subcommand : Flags → String × Option Flags
  | .mk _ none => ("", none)
  | .mk _ (some p) => p

/-- The operations `command.rs` can invoke on its collaborators, each with
exactly the arguments the corresponding dispatch arm passes (the mutable
config handle included where one is passed). -/
inductive Op where
  | initFromFlags (flags : Flags)
  | campaignerListFromFlags (cfg : Config) (flags : Flags)
  | campaignerCreateFromFlags (cfg : Config) (flags : Flags)
  | launchCampaign (cfg : Config) (campaign : CampaignId)
  | cancelCampaign (cfg : Config) (campaign : CampaignId)
  | listDeviceFlags (cfg : Config) (flags : Flags)
  | createDevice (cfg : Config) (name : String) (id : String) (ty : DeviceType)
  | deleteDevice (cfg : Config) (device : DeviceId)
  | listGroupFlags (cfg : Config) (flags : Flags)
  | createGroup (cfg : Config) (name : String)
  | addToGroup (cfg : Config) (group : GroupId) (device : DeviceId)
  | removeFromGroup (cfg : Config) (group : GroupId) (device : DeviceId)
  | renameGroup (cfg : Config) (group : GroupId) (name : String)
  | addPackage (cfg : Config) (package : TargetPackage)
  | getPackage (cfg : Config) (name : String) (version : String)
  | createMtu (cfg : Config) (updates : TufUpdates)
  | launchMtu (cfg : Config) (update : UpdateId) (device : DeviceId)

/-- The environment of external collaborators (all outside `src/`):
configuration loading, the identifier/flag parsers of the `api` crate, and
the backend facades, the latter summarised by `run`, giving each invoked
operation's result.  Modelled from the spec: each field is a black-box
functional contract (parameters in, result or failure out). -/
structure Env where
  loadDefault : Except Error Config
  parseCampaign : String → Except Error CampaignId
  parseDevice : String → Except Error DeviceId
  parseGroup : String → Except Error GroupId
  parseUpdate : String → Except Error UpdateId
  deviceTypeFromFlags : Flags → Except Error DeviceType
  targetPackageFromFlags : Flags → Except Error TargetPackage
  targetRequestsFromFile : String → Except Error TargetRequests
  tufUpdatesFrom : TargetRequests → TufUpdates
  run : Op → Except Error Unit

/-- Outcome of an `exec`: a panic (abrupt process termination, from `expect`
or `panic!`), an error returned through the result channel before any
collaborator operation was invoked (`?` propagation), or exactly one invoked
operation together with its result, which `exec` returns unchanged. -/
inductive ExecOut where
  | panic (msg : String)
  | err (e : Error)
  | called (op : Op) (res : Except Error Unit)

/-- `true` iff the outcome is an error returned through the result channel. -/
def ExecOut.isErr : ExecOut → Bool
  | .err _ => true
  | _ => false

/-- `true` iff the outcome invoked a collaborator operation. -/
def ExecOut.isCalled : ExecOut → Bool
  | .called _ _ => true
  | _ => false

/-- Invoke one operation and return its result unchanged. -/
def call (env : Env) (op : Op) : ExecOut :=
  .called op (env.run op)

/-- Available CLI sub-commands (`enum Command`). -/
inductive Command where
  | Init
  | Campaign
  | Device
  | Group
  | Package
  | Update
deriving Repr, DecidableEq

/-- Available campaign sub-commands (`enum Campaign`). -/
inductive Campaign where
  | List
  | Create
  | Launch
  | Cancel
deriving Repr, DecidableEq

/-- Available device sub-commands (`enum Device`). -/
inductive Device where
  | List
  | Create
  | Delete
deriving Repr, DecidableEq

/-- Available group sub-commands (`enum Group`). -/
inductive Group where
  | List
  | Create
  | Add
  | Rename
  | Remove
deriving Repr, DecidableEq

/-- Available package sub-commands (`enum Package`). -/
inductive Package where
  | List
  | Add
  | Fetch
deriving Repr, DecidableEq

/-- Available update sub-commands (`enum Update`). -/
inductive Update where
  | Create
  | Launch
deriving Repr, DecidableEq

/-- Model of Rust's `str::to_lowercase` as used by every `from_str` impl:
map `Char.toLower` over the characters.  Written by structural recursion
over the character list (rather than `String.toLower`, whose well-founded
recursion does not reduce) so that ground instances evaluate. -/
def toLowercase (s : String) : String := ⟨s.data.map Char.toLower⟩

/-- `impl FromStr for Command`: lowercase, then sequential exact match
against the six literals; otherwise `Error::Command("unknown command: {}")`
carrying the original token. -/
def Command.fromStr (s : String) : Except Error Command :=
  let l := toLowercase s
  if l = "init" then .ok .Init
  else if l = "campaign" then .ok .Campaign
  else if l = "device" then .ok .Device
  else if l = "group" then .ok .Group
  else if l = "package" then .ok .Package
  else if l = "update" then .ok .Update
  else .error (.Command ("unknown command: " ++ s))

/-- `impl FromStr for Campaign`. -/
def Campaign.fromStr (s : String) : Except Error Campaign :=
  let l := toLowercase s
  if l = "list" then .ok .List
  else if l = "create" then .ok .Create
  else if l = "launch" then .ok .Launch
  else if l = "cancel" then .ok .Cancel
  else .error (.Command ("unknown campaign subcommand: " ++ s))

/-- `impl FromStr for Device`. -/
def Device.fromStr (s : String) : Except Error Device :=
  let l := toLowercase s
  if l = "list" then .ok .List
  else if l = "create" then .ok .Create
  else if l = "delete" then .ok .Delete
  else .error (.Command ("unknown device subcommand: " ++ s))

/-- `impl FromStr for Group`. -/
def Group.fromStr (s : String) : Except Error Group :=
  let l := toLowercase s
  if l = "list" then .ok .List
  else if l = "create" then .ok .Create
  else if l = "add" then .ok .Add
  else if l = "rename" then .ok .Rename
  else if l = "remove" then .ok .Remove
  else .error (.Command ("unknown group subcommand: " ++ s))

/-- `impl FromStr for Package`. -/
def Package.fromStr (s : String) : Except Error Package :=
  let l := toLowercase s
  if l = "list" then .ok .List
  else if l = "add" then .ok .Add
  else if l = "fetch" then .ok .Fetch
  else .error (.Command ("unknown package subcommand: " ++ s))

/-- `impl FromStr for Update`. -/
def Update.fromStr (s : String) : Except Error Update :=
  let l := toLowercase s
  if l = "create" then .ok .Create
  else if l = "launch" then .ok .Launch
  else .error (.Command ("unknown update subcommand: " ++ s))

/-- `impl Exec for Campaign`: load the default config first (`?`), then
dispatch; `campaign()` is `flags.value_of("campaign").expect("--campaign").parse()`. -/
def Campaign.exec (env : Env) (self : Campaign) (flags : Flags) : ExecOut :=
  match env.loadDefault with
  | .error e => .err e
  | .ok config =>
    match self with
    | .List => call env (.campaignerListFromFlags config flags)
    | .Create => call env (.campaignerCreateFromFlags config flags)
    | .Launch =>
      match flags.valueOf "campaign" with
      | none => .panic "--campaign"
      | some s =>
        match env.parseCampaign s with
        | .error e => .err e
        | .ok campaign => call env (.launchCampaign config campaign)
    | .Cancel =>
      match flags.valueOf "campaign" with
      | none => .panic "--campaign"
      | some s =>
        match env.parseCampaign s with
        | .error e => .err e
        | .ok campaign => call env (.cancelCampaign config campaign)

/-- `impl Exec for Device`. -/
def Device.exec (env : Env) (self : Device) (flags : Flags) : ExecOut :=
  match env.loadDefault with
  | .error e => .err e
  | .ok config =>
    match self with
    | .List => call env (.listDeviceFlags config flags)
    | .Create =>
      match flags.valueOf "name" with
      | none => .panic "--name"
      | some name =>
        match flags.valueOf "id" with
        | none => .panic "--id"
        | some id =>
          match env.deviceTypeFromFlags flags with
          | .error e => .err e
          | .ok ty => call env (.createDevice config name id ty)
    | .Delete =>
      match flags.valueOf "device" with
      | none => .panic "--device"
      | some s =>
        match env.parseDevice s with
        | .error e => .err e
        | .ok device => call env (.deleteDevice config device)

/-- `impl Exec for Group`.  Argument order follows the source: for `Add`,
`Remove` the group id is evaluated before the device id; for `Rename` the
group id before the name. -/
def Group.exec (env : Env) (self : Group) (flags : Flags) : ExecOut :=
  match env.loadDefault with
  | .error e => .err e
  | .ok config =>
    match self with
    | .List => call env (.listGroupFlags config flags)
    | .Create =>
      match flags.valueOf "name" with
      | none => .panic "--name"
      | some name => call env (.createGroup config name)
    | .Add =>
      match flags.valueOf "group" with
      | none => .panic "--group"
      | some g =>
        match env.parseGroup g with
        | .error e => .err e
        | .ok group =>
          match flags.valueOf "device" with
          | none => .panic "--device"
          | some d =>
            match env.parseDevice d with
            | .error e => .err e
            | .ok device => call env (.addToGroup config group device)
    | .Remove =>
      match flags.valueOf "group" with
      | none => .panic "--group"
      | some g =>
        match env.parseGroup g with
        | .error e => .err e
        | .ok group =>
          match flags.valueOf "device" with
          | none => .panic "--device"
          | some d =>
            match env.parseDevice d with
            | .error e => .err e
            | .ok device => call env (.removeFromGroup config group device)
    | .Rename =>
      match flags.valueOf "group" with
      | none => .panic "--group"
      | some g =>
        match env.parseGroup g with
        | .error e => .err e
        | .ok group =>
          match flags.valueOf "name" with
          | none => .panic "--name"
          | some name => call env (.renameGroup config group name)

/-- `impl Exec for Package`: the `List` arm is `panic!("API not yet supported")`. -/
def Package.exec (env : Env) (self : Package) (flags : Flags) : ExecOut :=
  match env.loadDefault with
  | .error e => .err e
  | .ok config =>
    match self with
    | .List => .panic "API not yet supported"
    | .Add =>
      match env.targetPackageFromFlags flags with
      | .error e => .err e
      | .ok package => call env (.addPackage config package)
    | .Fetch =>
      match flags.valueOf "name" with
      | none => .panic "--name"
      | some name =>
        match flags.valueOf "version" with
        | none => .panic "--version"
        | some version => call env (.getPackage config name version)

/-- `impl Exec for Update`. -/
def Update.exec (env : Env) (self : Update) (flags : Flags) : ExecOut :=
  match env.loadDefault with
  | .error e => .err e
  | .ok config =>
    match self with
    | .Create =>
      match flags.valueOf "targets" with
      | none => .panic "--targets"
      | some targets =>
        match env.targetRequestsFromFile targets with
        | .error e => .err e
        | .ok reqs => call env (.createMtu config (env.tufUpdatesFrom reqs))
    | .Launch =>
      match flags.valueOf "update" with
      | none => .panic "--update"
      | some u =>
        match env.parseUpdate u with
        | .error e => .err e
        | .ok update =>
          match flags.valueOf "device" with
          | none => .panic "--device"
          | some d =>
            match env.parseDevice d with
            | .error e => .err e
            | .ok device => call env (.launchMtu config update device)

/-- `impl Exec for Command`: `Init` goes straight to
`Config::init_from_flags(flags)`; every other variant parses the nested
subcommand token with its own domain's `FromStr` (`?` propagation), then
runs that domain's `exec` on the nested matches (`expect` panic when absent). -/
def Command.exec (env : Env) (self : Command) (flags : Flags) : ExecOut :=
  let cmd := (Flags.subcommand flags).1
  let args := (Flags.subcommand flags).2
  match self with
  | .Init => call env (.initFromFlags flags)
  | .Campaign =>
    match Campaign.fromStr cmd with
    | .error e => .err e
    | .ok sub =>
      match args with
      | none => .panic "campaign args"
      | some a => Campaign.exec env sub a
  | .Device =>
    match Device.fromStr cmd with
    | .error e => .err e
    | .ok sub =>
      match args with
      | none => .panic "device args"
      | some a => Device.exec env sub a
  | .Group =>
    match Group.fromStr cmd with
    | .error e => .err e
    | .ok sub =>
      match args with
      | none => .panic "group args"
      | some a => Group.exec env sub a
  | .Package =>
    match Package.fromStr cmd with
    | .error e => .err e
    | .ok sub =>
      match args with
      | none => .panic "package args"
      | some a => Package.exec env sub a
  | .Update =>
    match Update.fromStr cmd with
    | .error e => .err e
    | .ok sub =>
      match args with
      | none => .panic "update args"
      | some a => Update.exec env sub a

/-- The literal a top-level command is written as (the match arms of
`Command::from_str`). -/
def Command.literal : Command → String
  | .Init => "init"
  | .Campaign => "campaign"
  | .Device => "device"
  | .Group => "group"
  | .Package => "package"
  | .Update => "update"

/-- The literals of `Campaign::from_str`. -/
def Campaign.literal : Campaign → String
  | .List => "list"
  | .Create => "create"
  | .Launch => "launch"
  | .Cancel => "cancel"

/-- The literals of `Device::from_str`. -/
def Device.literal : Device → String
  | .List => "list"
  | .Create => "create"
  | .Delete => "delete"

/-- The literals of `Group::from_str`. -/
def Group.literal : Group → String
  | .List => "list"
  | .Create => "create"
  | .Add => "add"
  | .Rename => "rename"
  | .Remove => "remove"

/-- The literals of `Package::from_str`. -/
def Package.literal : Package → String
  | .List => "list"
  | .Add => "add"
  | .Fetch => "fetch"

/-- The literals of `Update::from_str`. -/
def Update.literal : Update → String
  | .Create => "create"
  | .Launch => "launch"

/-- The disjoint union of the five per-domain subcommand enumerations: every
subcommand value carries the tag of its parent domain, so a cross-domain
(command, subcommand) pairing is unrepresentable. -/
inductive Sub where
  | campaign : Campaign → Sub
  | device : Device → Sub
  | group : Group → Sub
  | package : Package → Sub
  | update : Update → Sub
deriving Repr, DecidableEq

/-- The unique parent command of a subcommand value. -/
def Sub.parent : Sub → Command
  | .campaign _ => .Campaign
  | .device _ => .Device
  | .group _ => .Group
  | .package _ => .Package
  | .update _ => .Update

/-- The subcommand-resolution step of `Command::exec`: each domain parses the
token with its own `FromStr` impl (`cmd.parse::<Campaign>()` and so on);
`Init` performs no subcommand resolution. -/
def Command.resolveSub : Command → String → Option (Except Error Sub)
  | .Init, _ => none
  | .Campaign, t => some ((Campaign.fromStr t).map Sub.campaign)
  | .Device, t => some ((Device.fromStr t).map Sub.device)
  | .Group, t => some ((Group.fromStr t).map Sub.group)
  | .Package, t => some ((Package.fromStr t).map Sub.package)
  | .Update, t => some ((Update.fromStr t).map Sub.update)

/-- A resolution level: the top-level command position, or the subcommand
position of a given command. -/
inductive Level where
  | top
  | subOf (c : Command)
deriving Repr, DecidableEq

/-- Lexical resolution at a level: the pure function mapping a level and a
token to an enum value or a resolution failure (`none` at the subcommand
level of `Init`, which has no subcommands). -/
def resolve : Level → String → Option (Except Error (Command ⊕ Sub))
  | .top, t => some ((Command.fromStr t).map Sum.inl)
  | .subOf c, t => (Command.resolveSub c t).map (fun r => r.map Sum.inr)

/-- A concrete environment in which every collaborator succeeds: the config
loads, every identifier parses to the wrapped token, every invoked operation
returns ok. -/
def env0 : Env where
  loadDefault := .ok ⟨0⟩
  parseCampaign := fun s => .ok ⟨s⟩
  parseDevice := fun s => .ok ⟨s⟩
  parseGroup := fun s => .ok ⟨s⟩
  parseUpdate := fun s => .ok ⟨s⟩
  deviceTypeFromFlags := fun _ => .ok ⟨"qemu"⟩
  targetPackageFromFlags := fun _ => .ok ⟨"pkg"⟩
  targetRequestsFromFile := fun p => .ok ⟨p⟩
  tufUpdatesFrom := fun r => ⟨r.raw⟩
  run := fun _ => .ok ()

/-- A flag set carrying `--group 7` and nothing else (the spec's scenario
`group rename --group 7`, missing `--name`). -/
def flagsGroup7 : Flags := .mk [("group", "7")] none

/-- An empty flag set with no nested subcommand. -/
def flagsEmpty : Flags := .mk [] none

/-- Decidable equality of `Except` results, so that ground resolution
results can be checked by `decide`. -/
instance {e a : Type} [DecidableEq e] [DecidableEq a] : DecidableEq (Except e a) := fun x y =>
  match x, y with
  | .ok u, .ok v => if h : u = v then .isTrue (by rw [h]) else .isFalse (by simp [h])
  | .error u, .error v => if h : u = v then .isTrue (by rw [h]) else .isFalse (by simp [h])
  | .ok _, .error _ => .isFalse (by simp)
  | .error _, .ok _ => .isFalse (by simp)

/-- A concrete environment in which loading the default configuration
fails. -/
def envFail : Env where
  loadDefault := .error (.Api "no config")
  parseCampaign := fun s => .ok ⟨s⟩
  parseDevice := fun s => .ok ⟨s⟩
  parseGroup := fun s => .ok ⟨s⟩
  parseUpdate := fun s => .ok ⟨s⟩
  deviceTypeFromFlags := fun _ => .ok ⟨"qemu"⟩
  targetPackageFromFlags := fun _ => .ok ⟨"pkg"⟩
  targetRequestsFromFile := fun p => .ok ⟨p⟩
  tufUpdatesFrom := fun r => ⟨r.raw⟩
  run := fun _ => .ok ()

/-- A concrete environment in which campaign-identifier parsing fails. -/
def envBadId : Env where
  loadDefault := .ok ⟨0⟩
  parseCampaign := fun s => .error (.Api ("invalid campaign id: " ++ s))
  parseDevice := fun s => .ok ⟨s⟩
  parseGroup := fun s => .ok ⟨s⟩
  parseUpdate := fun s => .ok ⟨s⟩
  deviceTypeFromFlags := fun _ => .ok ⟨"qemu"⟩
  targetPackageFromFlags := fun _ => .ok ⟨"pkg"⟩
  targetRequestsFromFile := fun p => .ok ⟨p⟩
  tufUpdatesFrom := fun r => ⟨r.raw⟩
  run := fun _ => .ok ()

/-- Characterization of `Campaign::from_str`: a token resolves to a variant
iff its lowercasing equals that variant's literal, and resolves to the
unknown-subcommand error naming the domain and the token otherwise. -/
theorem campaign_fromStr_char (s : String) :
    (∀ x : Campaign, Campaign.fromStr s = .ok x ↔ toLowercase s = Campaign.literal x) ∧
    ((∀ x : Campaign, toLowercase s ≠ Campaign.literal x) →
      Campaign.fromStr s = .error (Error.Command ("unknown campaign subcommand: " ++ s))) := by
  constructor
  · intro x
    cases x <;> simp only [Campaign.fromStr, Campaign.literal] <;>
      split_ifs with h1 h2 h3 h4 <;> simp_all
  · intro h
    have h1 := h .List
    have h2 := h .Create
    have h3 := h .Launch
    have h4 := h .Cancel
    simp only [Campaign.literal] at h1 h2 h3 h4
    simp only [Campaign.fromStr]
    split_ifs <;> simp_all

/-- Characterization of `Device::from_str`. -/
theorem device_fromStr_char (s : String) :
    (∀ x : Device, Device.fromStr s = .ok x ↔ toLowercase s = Device.literal x) ∧
    ((∀ x : Device, toLowercase s ≠ Device.literal x) →
      Device.fromStr s = .error (Error.Command ("unknown device subcommand: " ++ s))) := by
  constructor
  · intro x
    cases x <;> simp only [Device.fromStr, Device.literal] <;>
      split_ifs with h1 h2 h3 <;> simp_all
  · intro h
    have h1 := h .List
    have h2 := h .Create
    have h3 := h .Delete
    simp only [Device.literal] at h1 h2 h3
    simp only [Device.fromStr]
    split_ifs <;> simp_all

/-- Characterization of `Group::from_str`. -/
theorem group_fromStr_char (s : String) :
    (∀ x : Group, Group.fromStr s = .ok x ↔ toLowercase s = Group.literal x) ∧
    ((∀ x : Group, toLowercase s ≠ Group.literal x) →
      Group.fromStr s = .error (Error.Command ("unknown group subcommand: " ++ s))) := by
  constructor
  · intro x
    cases x <;> simp only [Group.fromStr, Group.literal] <;>
      split_ifs with h1 h2 h3 h4 h5 <;> simp_all
  · intro h
    have h1 := h .List
    have h2 := h .Create
    have h3 := h .Add
    have h4 := h .Rename
    have h5 := h .Remove
    simp only [Group.literal] at h1 h2 h3 h4 h5
    simp only [Group.fromStr]
    split_ifs <;> simp_all

/-- Characterization of `Package::from_str`. -/
theorem package_fromStr_char (s : String) :
    (∀ x : Package, Package.fromStr s = .ok x ↔ toLowercase s = Package.literal x) ∧
    ((∀ x : Package, toLowercase s ≠ Package.literal x) →
      Package.fromStr s = .error (Error.Command ("unknown package subcommand: " ++ s))) := by
  constructor
  · intro x
    cases x <;> simp only [Package.fromStr, Package.literal] <;>
      split_ifs with h1 h2 h3 <;> simp_all
  · intro h
    have h1 := h .List
    have h2 := h .Add
    have h3 := h .Fetch
    simp only [Package.literal] at h1 h2 h3
    simp only [Package.fromStr]
    split_ifs <;> simp_all

/-- Characterization of `Update::from_str`. -/
theorem update_fromStr_char (s : String) :
    (∀ x : Update, Update.fromStr s = .ok x ↔ toLowercase s = Update.literal x) ∧
    ((∀ x : Update, toLowercase s ≠ Update.literal x) →
      Update.fromStr s = .error (Error.Command ("unknown update subcommand: " ++ s))) := by
  constructor
  · intro x
    cases x <;> simp only [Update.fromStr, Update.literal] <;>
      split_ifs with h1 h2 <;> simp_all
  · intro h
    have h1 := h .Create
    have h2 := h .Launch
    simp only [Update.literal] at h1 h2
    simp only [Update.fromStr]
    split_ifs <;> simp_all

/-- Claim C3: top-level command resolution is total, case-insensitive and
exact — for every input string, lowercasing it and comparing against the
six literals yields the unique corresponding `Command` value on a match,
and an unknown-command error carrying the input token when no literal
matches; no prefix or fuzzy matching, never more than one result. -/
theorem command_resolution_total_exact (s : String) :
    (∀ c : Command, Command.fromStr s = .ok c ↔ toLowercase s = Command.literal c) ∧
    ((∀ c : Command, toLowercase s ≠ Command.literal c) →
      Command.fromStr s = .error (Error.Command ("unknown command: " ++ s))) := by
  constructor
  · intro c
    cases c <;> simp only [Command.fromStr, Command.literal] <;>
      split_ifs with h1 h2 h3 h4 h5 h6 <;> simp_all
  · intro h
    have h1 := h .Init
    have h2 := h .Campaign
    have h3 := h .Device
    have h4 := h .Group
    have h5 := h .Package
    have h6 := h .Update
    simp only [Command.literal] at h1 h2 h3 h4 h5 h6
    simp only [Command.fromStr]
    split_ifs <;> simp_all

/-- Witness for C3: a mixed-case valid literal resolves, an out-of-set token
yields the unknown-command error carrying the token. -/
theorem command_resolution_total_exact_witness :
    Command.fromStr "CaMpAiGn" = .ok .Campaign ∧
    Command.fromStr "frobnicate" = .error (Error.Command "unknown command: frobnicate") := by
  constructor
  · exact ((command_resolution_total_exact "CaMpAiGn").1 .Campaign).mpr (by decide)
  · exact (command_resolution_total_exact "frobnicate").2 (by intro c; cases c <;> decide)

/-- Claim C4: for each of the five command domains, subcommand resolution
lowercases the token and matches it only against that domain's fixed
literal set; when no literal matches, it fails with a terminal error naming
the parent domain and the token, never defaulting to any value. -/
theorem subcommand_resolution_per_domain (s : String) :
    ((∀ x : Campaign, Campaign.fromStr s = .ok x ↔ toLowercase s = Campaign.literal x) ∧
     ((∀ x : Campaign, toLowercase s ≠ Campaign.literal x) →
       Campaign.fromStr s = .error (Error.Command ("unknown campaign subcommand: " ++ s)))) ∧
    ((∀ x : Device, Device.fromStr s = .ok x ↔ toLowercase s = Device.literal x) ∧
     ((∀ x : Device, toLowercase s ≠ Device.literal x) →
       Device.fromStr s = .error (Error.Command ("unknown device subcommand: " ++ s)))) ∧
    ((∀ x : Group, Group.fromStr s = .ok x ↔ toLowercase s = Group.literal x) ∧
     ((∀ x : Group, toLowercase s ≠ Group.literal x) →
       Group.fromStr s = .error (Error.Command ("unknown group subcommand: " ++ s)))) ∧
    ((∀ x : Package, Package.fromStr s = .ok x ↔ toLowercase s = Package.literal x) ∧
     ((∀ x : Package, toLowercase s ≠ Package.literal x) →
       Package.fromStr s = .error (Error.Command ("unknown package subcommand: " ++ s)))) ∧
    ((∀ x : Update, Update.fromStr s = .ok x ↔ toLowercase s = Update.literal x) ∧
     ((∀ x : Update, toLowercase s ≠ Update.literal x) →
       Update.fromStr s = .error (Error.Command ("unknown update subcommand: " ++ s)))) :=
  ⟨campaign_fromStr_char s, device_fromStr_char s, group_fromStr_char s,
   package_fromStr_char s, update_fromStr_char s⟩

/-- Witness for C4: a mixed-case campaign literal resolves; an out-of-set
group token fails with the error naming the group domain and the token. -/
theorem subcommand_resolution_per_domain_witness :
    Campaign.fromStr "LAUNCH" = .ok .Launch ∧
    Group.fromStr "frobnicate" = .error (Error.Command "unknown group subcommand: frobnicate") := by
  constructor
  · exact ((subcommand_resolution_per_domain "LAUNCH").1.1 .Launch).mpr (by decide)
  · exact (subcommand_resolution_per_domain "frobnicate").2.2.1.2 (by intro x; cases x <;> decide)

/-- Claim C7: every subcommand value belongs to exactly one command — the
five subcommand sets are separate closed enumerations (`Sub` tags each
value with its domain, making cross-domain pairs unrepresentable), and the
subcommand resolution a command dispatches through only ever produces
subcommand values of that command's own domain. -/
theorem subcommand_parent_unique :
    (∀ c t s, Command.resolveSub c t = some (.ok s) → Sub.parent s = c) ∧
    (∀ s : Sub, ∃! c : Command, Sub.parent s = c) := by
  constructor
  · intro c t s h
    cases c <;> simp only [Command.resolveSub] at h
    case Init => exact absurd h (by simp)
    case Campaign =>
      cases hc : Campaign.fromStr t <;> simp [hc, Except.map] at h
      simp [← h, Sub.parent]
    case Device =>
      cases hc : Device.fromStr t <;> simp [hc, Except.map] at h
      simp [← h, Sub.parent]
    case Group =>
      cases hc : Group.fromStr t <;> simp [hc, Except.map] at h
      simp [← h, Sub.parent]
    case Package =>
      cases hc : Package.fromStr t <;> simp [hc, Except.map] at h
      simp [← h, Sub.parent]
    case Update =>
      cases hc : Update.fromStr t <;> simp [hc, Except.map] at h
      simp [← h, Sub.parent]
  · intro s
    exact ⟨s.parent, rfl, fun c hc => hc.symm⟩

/-- Witness for C7: resolving "list" under the campaign command yields a
campaign-domain subcommand whose parent is the campaign command. -/
theorem subcommand_parent_unique_witness :
    Sub.parent (.campaign .List) = .Campaign :=
  subcommand_parent_unique.1 .Campaign "list" (.campaign .List) (by decide)

/-- Claim C8: resolution is idempotent and deterministic — resolving the
same token at the same level any number of times yields the same result,
since `resolve` is a pure function of the level and the token. -/
theorem resolution_deterministic (l : Level) (t : String)
    (r1 r2 : Option (Except Error (Command ⊕ Sub)))
    (h1 : resolve l t = r1) (h2 : resolve l t = r2) : r1 = r2 :=
  h1.symm.trans h2

/-- Witness for C8: two resolutions of "INIT" at top level agree on the
value they produce. -/
theorem resolution_deterministic_witness :
    resolve .top "INIT" = some (.ok (.inl .Init)) :=
  resolution_deterministic .top "INIT" (resolve .top "INIT")
    (some (.ok (.inl .Init))) rfl (by decide)

/-- Claim C9: executing `Init` performs no subcommand resolution and no
per-domain configuration load — it routes directly to the
configuration-bootstrap operation with the supplied flags and returns that
operation's result unchanged (the right-hand side depends on the
environment only through the result of that one operation). -/
theorem init_routes_to_bootstrap (env : Env) (flags : Flags) :
    Command.exec env .Init flags = call env (.initFromFlags flags) := rfl

/-- Claim C10: every non-Init dispatch path first loads the default
configuration; if loading fails, the dispatch returns that error through
the result channel, for every flag set and subcommand, and no collaborator
operation is invoked. -/
theorem load_default_failure_short_circuits (env : Env) (e : Error)
    (h : env.loadDefault = .error e) (flags : Flags) :
    (∀ c : Campaign, Campaign.exec env c flags = .err e) ∧
    (∀ d : Device, Device.exec env d flags = .err e) ∧
    (∀ g : Group, Group.exec env g flags = .err e) ∧
    (∀ p : Package, Package.exec env p flags = .err e) ∧
    (∀ u : Update, Update.exec env u flags = .err e) := by
  refine ⟨?_, ?_, ?_, ?_, ?_⟩ <;> intro x <;>
    simp [Campaign.exec, Device.exec, Group.exec, Package.exec, Update.exec, h]

/-- Witness for C10: with a failing configuration loader, `campaign list`
returns the load error and invokes nothing. -/
theorem load_default_failure_short_circuits_witness :
    Campaign.exec envFail .List flagsEmpty = .err (.Api "no config") :=
  (load_default_failure_short_circuits envFail (.Api "no config") rfl flagsEmpty).1 .List

/-- Counterexample to C1 as stated: `group rename --group 7` (missing
`--name`) makes extraction panic with the missing flag's name — an abrupt
termination, not a `MissingParameter` error in the normal result
channel. -/
theorem missing_parameter_not_in_result_channel :
    Group.exec env0 .Rename flagsGroup7 = .panic "--name" ∧
    (Group.exec env0 .Rename flagsGroup7).isErr = false := ⟨rfl, rfl⟩

/-- Claim C1 as amended: for every resolved subcommand missing one of its
required parameters, extraction fails deterministically by panicking with a
message naming the exact missing flag (abrupt termination via `expect`, not
an error in the result channel), before any backend operation is attempted;
dispatch is never reached.  The conjunction covers every `expect` read of a
required flag in every dispatch arm of the source, in source evaluation
order: `--campaign` (Campaign Launch/Cancel); `--name`, `--id`, `--device`
(Device Create/Delete); `--name`, `--group`, `--device` (Group
Create/Add/Remove/Rename); `--name`, `--version` (Package Fetch);
`--targets`, `--update`, `--device` (Update Create/Launch). -/
theorem missing_parameter_panics (env : Env) (cfg : Config) (flags : Flags)
    (h : env.loadDefault = .ok cfg) :
    (flags.valueOf "campaign" = none →
      Campaign.exec env .Launch flags = .panic "--campaign") ∧
    (flags.valueOf "campaign" = none →
      Campaign.exec env .Cancel flags = .panic "--campaign") ∧
    (flags.valueOf "name" = none →
      Device.exec env .Create flags = .panic "--name") ∧
    (∀ n, flags.valueOf "name" = some n → flags.valueOf "id" = none →
      Device.exec env .Create flags = .panic "--id") ∧
    (flags.valueOf "device" = none →
      Device.exec env .Delete flags = .panic "--device") ∧
    (flags.valueOf "name" = none →
      Group.exec env .Create flags = .panic "--name") ∧
    (flags.valueOf "group" = none →
      Group.exec env .Add flags = .panic "--group") ∧
    (∀ g gid, flags.valueOf "group" = some g → env.parseGroup g = .ok gid →
      flags.valueOf "device" = none → Group.exec env .Add flags = .panic "--device") ∧
    (flags.valueOf "group" = none →
      Group.exec env .Remove flags = .panic "--group") ∧
    (∀ g gid, flags.valueOf "group" = some g → env.parseGroup g = .ok gid →
      flags.valueOf "device" = none → Group.exec env .Remove flags = .panic "--device") ∧
    (flags.valueOf "group" = none →
      Group.exec env .Rename flags = .panic "--group") ∧
    (∀ g gid, flags.valueOf "group" = some g → env.parseGroup g = .ok gid →
      flags.valueOf "name" = none → Group.exec env .Rename flags = .panic "--name") ∧
    (flags.valueOf "name" = none →
      Package.exec env .Fetch flags = .panic "--name") ∧
    (∀ n, flags.valueOf "name" = some n → flags.valueOf "version" = none →
      Package.exec env .Fetch flags = .panic "--version") ∧
    (flags.valueOf "targets" = none →
      Update.exec env .Create flags = .panic "--targets") ∧
    (flags.valueOf "update" = none →
      Update.exec env .Launch flags = .panic "--update") ∧
    (∀ u uid, flags.valueOf "update" = some u → env.parseUpdate u = .ok uid →
      flags.valueOf "device" = none → Update.exec env .Launch flags = .panic "--device") := by
  refine ⟨?_, ?_, ?_, ?_, ?_, ?_, ?_, ?_, ?_, ?_, ?_, ?_, ?_, ?_, ?_, ?_, ?_⟩ <;>
    intros <;> simp_all [Campaign.exec, Device.exec, Group.exec, Package.exec, Update.exec]

/-- Witness for the amended C1: `campaign launch` with no flags panics
naming `--campaign`. -/
theorem missing_parameter_panics_witness :
    Campaign.exec env0 .Launch flagsEmpty = .panic "--campaign" :=
  (missing_parameter_panics env0 ⟨0⟩ flagsEmpty rfl).1 rfl

/-- Counterexample to C2 as stated: `package list` panics with
"API not yet supported" — an abrupt termination, not a typed
`NotImplemented` failure in the normal result channel. -/
theorem package_list_not_result_channel :
    Package.exec env0 .List flagsEmpty = .panic "API not yet supported" ∧
    (Package.exec env0 .List flagsEmpty).isErr = false := ⟨rfl, rfl⟩

/-- Claim C2 as amended: dispatching `Package::List` never invokes any
backend operation, and (once the configuration loads) always aborts with
the panic "API not yet supported", for every parameter set supplied. -/
theorem package_list_never_calls_backend (env : Env) (flags : Flags) :
    (Package.exec env .List flags).isCalled = false ∧
    (∀ cfg, env.loadDefault = .ok cfg →
      Package.exec env .List flags = .panic "API not yet supported") := by
  constructor
  · cases h : env.loadDefault <;> simp [Package.exec, h, ExecOut.isCalled]
  · intro cfg h
    simp [Package.exec, h]

/-- Witness for the amended C2: concrete flags make `package list` panic
without any collaborator call. -/
theorem package_list_never_calls_backend_witness :
    (Package.exec env0 .List flagsGroup7).isCalled = false ∧
    Package.exec env0 .List flagsGroup7 = .panic "API not yet supported" :=
  ⟨(package_list_never_calls_backend env0 flagsGroup7).1,
   (package_list_never_calls_backend env0 flagsGroup7).2 ⟨0⟩ rfl⟩

/-- Claim C5: for every (command, subcommand) pair in the routing table, a
successful dispatch invokes exactly one backend operation — the one listed
in that pair's row — passing exactly the parameters listed for that row
and no others; no pair triggers more than one backend call (structurally,
an `ExecOut.called` outcome records the unique invoked operation) and no
pair silently no-ops. -/
theorem dispatch_routing_table (env : Env) (cfg : Config)
    (h : env.loadDefault = .ok cfg) :
    (∀ flags, Campaign.exec env .List flags = call env (.campaignerListFromFlags cfg flags)) ∧
    (∀ flags, Campaign.exec env .Create flags = call env (.campaignerCreateFromFlags cfg flags)) ∧
    (∀ flags s cid, flags.valueOf "campaign" = some s → env.parseCampaign s = .ok cid →
      Campaign.exec env .Launch flags = call env (.launchCampaign cfg cid)) ∧
    (∀ flags s cid, flags.valueOf "campaign" = some s → env.parseCampaign s = .ok cid →
      Campaign.exec env .Cancel flags = call env (.cancelCampaign cfg cid)) ∧
    (∀ flags, Device.exec env .List flags = call env (.listDeviceFlags cfg flags)) ∧
    (∀ flags n i ty, flags.valueOf "name" = some n → flags.valueOf "id" = some i →
      env.deviceTypeFromFlags flags = .ok ty →
      Device.exec env .Create flags = call env (.createDevice cfg n i ty)) ∧
    (∀ flags s did, flags.valueOf "device" = some s → env.parseDevice s = .ok did →
      Device.exec env .Delete flags = call env (.deleteDevice cfg did)) ∧
    (∀ flags, Group.exec env .List flags = call env (.listGroupFlags cfg flags)) ∧
    (∀ flags n, flags.valueOf "name" = some n →
      Group.exec env .Create flags = call env (.createGroup cfg n)) ∧
    (∀ flags g gid d did, flags.valueOf "group" = some g → env.parseGroup g = .ok gid →
      flags.valueOf "device" = some d → env.parseDevice d = .ok did →
      Group.exec env .Add flags = call env (.addToGroup cfg gid did)) ∧
    (∀ flags g gid d did, flags.valueOf "group" = some g → env.parseGroup g = .ok gid →
      flags.valueOf "device" = some d → env.parseDevice d = .ok did →
      Group.exec env .Remove flags = call env (.removeFromGroup cfg gid did)) ∧
    (∀ flags g gid n, flags.valueOf "group" = some g → env.parseGroup g = .ok gid →
      flags.valueOf "name" = some n →
      Group.exec env .Rename flags = call env (.renameGroup cfg gid n)) ∧
    (∀ flags pkg, env.targetPackageFromFlags flags = .ok pkg →
      Package.exec env .Add flags = call env (.addPackage cfg pkg)) ∧
    (∀ flags n v, flags.valueOf "name" = some n → flags.valueOf "version" = some v →
      Package.exec env .Fetch flags = call env (.getPackage cfg n v)) ∧
    (∀ flags t reqs, flags.valueOf "targets" = some t →
      env.targetRequestsFromFile t = .ok reqs →
      Update.exec env .Create flags = call env (.createMtu cfg (env.tufUpdatesFrom reqs))) ∧
    (∀ flags u uid d did, flags.valueOf "update" = some u → env.parseUpdate u = .ok uid →
      flags.valueOf "device" = some d → env.parseDevice d = .ok did →
      Update.exec env .Launch flags = call env (.launchMtu cfg uid did)) := by
  refine ⟨?_, ?_, ?_, ?_, ?_, ?_, ?_, ?_, ?_, ?_, ?_, ?_, ?_, ?_, ?_, ?_⟩ <;> intros <;>
    simp_all [Campaign.exec, Device.exec, Group.exec, Package.exec, Update.exec]

/-- Witness for C5: `campaign launch --campaign 42` invokes exactly the
launch-campaign operation with the parsed id. -/
theorem dispatch_routing_table_witness :
    Campaign.exec env0 .Launch (.mk [("campaign", "42")] none) =
      call env0 (.launchCampaign ⟨0⟩ ⟨"42"⟩) :=
  (dispatch_routing_table env0 ⟨0⟩ rfl).2.2.1 (.mk [("campaign", "42")] none) "42" ⟨"42"⟩ rfl rfl

/-- Claim C6: for every identifier-typed parameter (device, group,
campaign, update), extraction either parses the supplied string into the
domain's typed identifier (and passes exactly that identifier to the
single backend call, never a default) or fails with the parse error, which
is propagated through the result channel before any backend call.  The
conjunction covers each domain's identifier at every position it is parsed:
campaign (Campaign Launch/Cancel), device (Device Delete, and the
second-position device of Group Add and Update Launch), group (Group
Add/Remove/Rename), update (Update Launch). -/
theorem identifier_parse_propagation (env : Env) (cfg : Config)
    (h : env.loadDefault = .ok cfg) :
    (∀ flags s e, flags.valueOf "campaign" = some s → env.parseCampaign s = .error e →
      Campaign.exec env .Launch flags = .err e) ∧
    (∀ flags s cid, flags.valueOf "campaign" = some s → env.parseCampaign s = .ok cid →
      Campaign.exec env .Launch flags = call env (.launchCampaign cfg cid)) ∧
    (∀ flags s e, flags.valueOf "campaign" = some s → env.parseCampaign s = .error e →
      Campaign.exec env .Cancel flags = .err e) ∧
    (∀ flags s e, flags.valueOf "device" = some s → env.parseDevice s = .error e →
      Device.exec env .Delete flags = .err e) ∧
    (∀ flags s did, flags.valueOf "device" = some s → env.parseDevice s = .ok did →
      Device.exec env .Delete flags = call env (.deleteDevice cfg did)) ∧
    (∀ flags g e, flags.valueOf "group" = some g → env.parseGroup g = .error e →
      Group.exec env .Add flags = .err e) ∧
    (∀ flags g e, flags.valueOf "group" = some g → env.parseGroup g = .error e →
      Group.exec env .Remove flags = .err e) ∧
    (∀ flags g e, flags.valueOf "group" = some g → env.parseGroup g = .error e →
      Group.exec env .Rename flags = .err e) ∧
    (∀ flags g gid d e, flags.valueOf "group" = some g → env.parseGroup g = .ok gid →
      flags.valueOf "device" = some d → env.parseDevice d = .error e →
      Group.exec env .Add flags = .err e) ∧
    (∀ flags g gid n, flags.valueOf "group" = some g → env.parseGroup g = .ok gid →
      flags.valueOf "name" = some n →
      Group.exec env .Rename flags = call env (.renameGroup cfg gid n)) ∧
    (∀ flags s e, flags.valueOf "update" = some s → env.parseUpdate s = .error e →
      Update.exec env .Launch flags = .err e) ∧
    (∀ flags s uid d e, flags.valueOf "update" = some s → env.parseUpdate s = .ok uid →
      flags.valueOf "device" = some d → env.parseDevice d = .error e →
      Update.exec env .Launch flags = .err e) ∧
    (∀ flags s uid d did, flags.valueOf "update" = some s → env.parseUpdate s = .ok uid →
      flags.valueOf "device" = some d → env.parseDevice d = .ok did →
      Update.exec env .Launch flags = call env (.launchMtu cfg uid did)) := by
  refine ⟨?_, ?_, ?_, ?_, ?_, ?_, ?_, ?_, ?_, ?_, ?_, ?_, ?_⟩ <;> intros <;>
    simp_all [Campaign.exec, Device.exec, Group.exec, Update.exec]

/-- Witness for C6: an unparsable campaign id surfaces the parse error in
the result channel before any backend call. -/
theorem identifier_parse_propagation_witness :
    Campaign.exec envBadId .Launch (.mk [("campaign", "zzz")] none) =
      .err (.Api "invalid campaign id: zzz") :=
  (identifier_parse_propagation envBadId ⟨0⟩ rfl).1 (.mk [("campaign", "zzz")] none)
    "zzz" (.Api "invalid campaign id: zzz") rfl rfl

end CampaignManager
